import Mathlib

/-!
# Verification of the mlpack SAC training core (`sac_impl.hpp`)

A shallow embedding of `src/mlpack/methods/reinforcement_learning/sac_impl.hpp`.

Modelling decisions:
* Network parameter blocks (`arma::mat`) are flat lists of exact rationals
  (`List ℚ`); all arithmetic the algorithm performs on them is elementwise.
* The external collaborators (the three networks, the ensmallen updater, the
  replay buffer and the environment — all template parameters of `SAC`) are
  abstract functions collected in `SACOps`.  The reference action shape is a
  single scalar component (`action.action[0]` in the source), so policy outputs
  and actions are single rationals.
* The C++ member mutation is explicit state passing on `SACAgent`.
* The `ENS_VERSION_MAJOR >= 2` branch of the source is the one embedded: the
  updater is a stateful policy object created once per trained network kind
  (`qNetworkUpdatePolicy`, `policyNetworkUpdatePolicy`), threaded through every
  `Update` call.
* Uniform random draws (`arma::randu`, `ResetParameters`) are explicit inputs.
* The `Episode` while-loop is embedded with explicit fuel, returning `none`
  when the fuel runs out before the loop exits.
-/

namespace MlpackSAC

/-- Parameter block of one network: `arma::mat` flattened to a list. -/
abbrev Params := List ℚ

/-- Armadillo `clamp` on one scalar. -/
def clampQ (x lo hi : ℚ) : ℚ := min hi (max lo x)

/-- The `(1 - isTerminal)` factor: armadillo `irowvec` entries are 1 for a
terminal next state and 0 otherwise. -/
def termQ (b : Bool) : ℚ := if b then 1 else 0

/-- One replay transition, as passed to `replayMethod.Store(state, action,
reward, nextState, isTerminal, discount)`. -/
structure Transition (S : Type) where
  state : S
  action : ℚ
  reward : ℚ
  nextState : S
  isTerminal : Bool
  discount : ℚ
deriving Repr, DecidableEq

/-- The `TrainingConfig` fields read by the SAC core. -/
structure SACConfig where
  discount : ℚ
  stepSize : ℚ
  stepLimit : ℕ
  explorationSteps : ℕ
  targetNetworkSyncInterval : ℕ
deriving Repr, DecidableEq

/-- The external collaborators of the SAC core, as abstract functions:
the critic architecture (shared by both learning critics and both targets),
the policy architecture, the ensmallen update rule, the loss, the replay
buffer's sampling policy and the environment.  A network's `Predict` and
`Forward` compute the same network function (deterministic function
approximators); `Backward` is one abstract function of parameters, input batch
and output gradient, as in the source where its result is fed either to the
updater or sliced as an input gradient. -/
structure SACOps (S : Type) where
  /-- Critic `Predict`/`Forward`: parameters and one input column
  (action component stacked over the encoded state) to the scalar Q value. -/
  qPredict : Params → List ℚ → ℚ
  /-- Critic `Backward(input, outputGradient, out gradient)`: parameters,
  input batch (list of columns) and output gradient to a gradient block. -/
  qBackward : Params → List (List ℚ) → List ℚ → List ℚ
  /-- Policy `Predict`/`Forward`: parameters and one encoded state column to
  the scalar action. -/
  policyPredict : Params → List ℚ → ℚ
  /-- Policy `Backward(input, outputGradient, out gradient)`. -/
  policyBackward : Params → List ℚ → List ℚ → List ℚ
  /-- `lossFunction.Backward(prediction, target, out gradient)` on a batch
  row vector of predictions against a batch row vector of targets. -/
  lossBackward : List ℚ → List ℚ → List ℚ
  /-- One `UpdaterType::Policy::Update(iterate, stepSize, gradient)` call:
  optimizer state and current parameters to new parameters and new state. -/
  updStep : List ℚ → Params → ℚ → List ℚ → Params × List ℚ
  /-- `State::Encode()`. -/
  encode : S → List ℚ
  /-- `replayMethod.Sample(...)`: the batch drawn from the current buffer
  contents (batch size is a store-side property). -/
  sample : List (Transition S) → List (Transition S)
  /-- `environment.InitialSample()`. -/
  envInitial : S
  /-- `environment.IsTerminal(state)`. -/
  envIsTerminal : S → Bool
  /-- `environment.Sample(state, action, nextState)`: next state and reward. -/
  envSample : S → ℚ → S × ℚ

/-- The mutable members of the `SAC` class. -/
structure SACAgent (S : Type) where
  config : SACConfig
  learningQ1 : Params
  learningQ2 : Params
  targetQ1 : Params
  targetQ2 : Params
  policyParams : Params
  /-- State of `qNetworkUpdatePolicy`, the one updater policy object built in
  the constructor from `learningQ1Network`'s parameter dimensions. -/
  qUpdaterState : List ℚ
  /-- State of `policyNetworkUpdatePolicy`. -/
  policyUpdaterState : List ℚ
  totalSteps : ℕ
  deterministic : Bool
  state : S
  action : ℚ
  /-- Contents of the replay buffer, in `Store` order. -/
  replay : List (Transition S)

/-- The fresh random parameter blocks produced by the `ResetParameters()`
calls that the constructor can make. -/
structure InitDraws where
  q1Reset : Params
  q2Reset : Params
  policyReset : Params

/-- The `SAC` constructor (lines 36–89 of the source): reset `learningQ1` and
the policy if empty, create `learningQ2` as a copy of `learningQ1` followed by
a fresh `ResetParameters()`, and copy both learning critics into the targets.
`totalSteps` starts at 0 and `deterministic` at `false`. -/
def initAgent {S : Type} (config : SACConfig) (q1Given policyGiven : Params)
    (replay : List (Transition S)) (qUpd0 policyUpd0 : List ℚ) (s0 : S)
    (draws : InitDraws) : SACAgent S :=
  let learningQ1 := if q1Given.isEmpty then draws.q1Reset else q1Given
  let learningQ2 := draws.q2Reset
  let policyParams := if policyGiven.isEmpty then draws.policyReset else
    policyGiven
  { config := config
    learningQ1 := learningQ1
    learningQ2 := learningQ2
    targetQ1 := learningQ1
    targetQ2 := learningQ2
    policyParams := policyParams
    qUpdaterState := qUpd0
    policyUpdaterState := policyUpd0
    totalSteps := 0
    deterministic := false
    state := s0
    action := 0
    replay := replay }

/-- Elementwise soft-update rule of one target block (lines 127–130):
`(1 - rho) * target + rho * learning`. -/
def softUpdateParams (rho : ℚ) (target learning : Params) : Params :=
  List.zipWith (fun t l => (1 - rho) * t + rho * l) target learning

/-- `SAC::SoftUpdate(rho)` (lines 112–132): soft-update both target critics
from their corresponding learning critics. -/
def SoftUpdate {S : Type} (rho : ℚ) (ag : SACAgent S) : SACAgent S :=
  { ag with
    targetQ1 := softUpdateParams rho ag.targetQ1 ag.learningQ1
    targetQ2 := softUpdateParams rho ag.targetQ2 ag.learningQ2 }

/-- Lines 158–159: the next-state action, from `policyNetwork.Predict` on the
sampled next state (inference, no exploration noise). -/
def nextStateAction {S : Type} (ops : SACOps S) (ag : SACAgent S)
    (tr : Transition S) : ℚ :=
  ops.policyPredict ag.policyParams (ops.encode tr.nextState)

/-- Lines 161–162: one column of `targetQInput = join_vert(nextStateActions,
sampledNextStates)`. -/
def targetQInputCol {S : Type} (ops : SACOps S) (ag : SACAgent S)
    (tr : Transition S) : List ℚ :=
  nextStateAction ops ag tr :: ops.encode tr.nextState

/-- Lines 163–167: the bootstrapped regression target row vector
`nextQ = sampledRewards + discount * (1 - isTerminal) % min(Q1, Q2)` where
`Q1`, `Q2` are the target critics' predictions on `targetQInput`. -/
def nextQ {S : Type} (ops : SACOps S) (ag : SACAgent S)
    (batch : List (Transition S)) : List ℚ :=
  batch.map fun tr =>
    tr.reward + ag.config.discount * (1 - termQ tr.isTerminal) *
      min (ops.qPredict ag.targetQ1 (targetQInputCol ops ag tr))
          (ops.qPredict ag.targetQ2 (targetQInputCol ops ag tr))

/-- Lines 169–173: one column of `learningQInput =
join_vert(sampledActionValues, sampledStates)`: the actually taken action
stacked over the stored state. -/
def learningQInputCol {S : Type} (ops : SACOps S) (tr : Transition S) :
    List ℚ :=
  tr.action :: ops.encode tr.state

/-- Lines 174, 177–178, 182–183: the critic-1 parameter gradient
`gradientQ1` obtained by backpropagating the loss gradient between critic 1's
forward pass on `learningQInput` and `nextQ`. -/
def criticGradientQ1 {S : Type} (ops : SACOps S) (ag : SACAgent S)
    (batch : List (Transition S)) : List ℚ :=
  ops.qBackward ag.learningQ1 (batch.map (learningQInputCol ops))
    (ops.lossBackward
      (batch.map fun tr => ops.qPredict ag.learningQ1 (learningQInputCol ops tr))
      (nextQ ops ag batch))

/-- Lines 175, 177, 179, 191: the critic-2 parameter gradient `gradientQ2`,
against the same target `nextQ`. -/
def criticGradientQ2 {S : Type} (ops : SACOps S) (ag : SACAgent S)
    (batch : List (Transition S)) : List ℚ :=
  ops.qBackward ag.learningQ2 (batch.map (learningQInputCol ops))
    (ops.lossBackward
      (batch.map fun tr => ops.qPredict ag.learningQ2 (learningQInputCol ops tr))
      (nextQ ops ag batch))

/-- Lines 181–201: the two critic optimizer steps.  Both go through the one
`qNetworkUpdatePolicy` object: the state left by critic 1's step is the state
critic 2's step starts from.  Result: (new critic-1 parameters, new critic-2
parameters, updater state after both steps). -/
def criticUpdate {S : Type} (ops : SACOps S) (ag : SACAgent S)
    (batch : List (Transition S)) : Params × Params × List ℚ :=
  let u1 := ops.updStep ag.qUpdaterState ag.learningQ1 ag.config.stepSize
    (criticGradientQ1 ops ag batch)
  let u2 := ops.updStep u1.2 ag.learningQ2 ag.config.stepSize
    (criticGradientQ2 ops ag batch)
  (u1.1, u2.1, u2.2)

/-- Lines 212–241, one iteration of the actor loop: re-run the policy forward
pass on the single state, form `input = join_vert(singlePi, singleState)`,
pick the critic whose prediction on that input is strictly lower (critic 2 on
ties), backpropagate its negated output through it, slice the leading
action-sized block (`gradQ.rows(0, singlePi.n_rows - 1)`, one row in the
reference shape), and backpropagate that block through the policy.
`lq1`, `lq2` are the critic parameters after the critic update, which is what
`learningQ1Network`/`learningQ2Network` hold at this point of `Update`. -/
def actorSampleGradient {S : Type} (ops : SACOps S) (lq1 lq2 policyPs : Params)
    (tr : Transition S) : List ℚ :=
  let singleState := ops.encode tr.state
  let singlePi := ops.policyPredict policyPs singleState
  let input := singlePi :: singleState
  let gradQ :=
    if ops.qPredict lq1 input < ops.qPredict lq2 input then
      ops.qBackward lq1 [input] [-(ops.qPredict lq1 input)]
    else
      ops.qBackward lq2 [input] [-(ops.qPredict lq2 input)]
  let gradPolicy := gradQ.take 1
  ops.policyBackward policyPs singleState gradPolicy

/-- Lines 211–242: the accumulated actor gradient: zero-filled at the first
sample's gradient shape, then `gradient += grad` per sample — a plain sum,
the commented-out division by the batch size (line 243) not applied.  An
empty batch leaves `gradient` the default-constructed empty matrix. -/
def actorGradient {S : Type} (ops : SACOps S) (lq1 lq2 policyPs : Params)
    (batch : List (Transition S)) : List ℚ :=
  match batch with
  | [] => []
  | tr0 :: _ =>
    batch.foldl
      (fun acc tr =>
        List.zipWith (· + ·) acc (actorSampleGradient ops lq1 lq2 policyPs tr))
      (List.replicate (actorSampleGradient ops lq1 lq2 policyPs tr0).length 0)

/-- `SAC::Update()` (lines 140–253): sample a batch, run the critic update,
run the actor update (one `policyNetworkUpdatePolicy` step on the accumulated
gradient with the configured step size), then soft-update the targets with
rate 0.005 exactly when `totalSteps` is a multiple of the sync interval. -/
def Update {S : Type} (ops : SACOps S) (ag : SACAgent S) : SACAgent S :=
  let batch := ops.sample ag.replay
  let cu := criticUpdate ops ag batch
  let pu := ops.updStep ag.policyUpdaterState ag.policyParams
    ag.config.stepSize (actorGradient ops cu.1 cu.2.1 ag.policyParams batch)
  let agA := { ag with
    learningQ1 := cu.1
    learningQ2 := cu.2.1
    qUpdaterState := cu.2.2
    policyParams := pu.1
    policyUpdaterState := pu.2 }
  if ag.totalSteps % ag.config.targetNetworkSyncInterval = 0 then
    SoftUpdate 0.005 agA
  else
    agA

/-- `SAC::SelectAction()` (lines 261–282): policy inference on the encoded
current state; when not deterministic, add one `randu * 0.1` noise draw
(`u` is the fresh uniform draw in `[0, 1]`), the noise clamped to
`[-0.25, 0.25]` before the addition.  `action.action[0]` receives the
result either way. -/
def SelectAction {S : Type} (ops : SACOps S) (u : ℚ) (ag : SACAgent S) :
    SACAgent S :=
  let outputAction := ops.policyPredict ag.policyParams (ops.encode ag.state)
  if ag.deterministic then
    { ag with action := outputAction }
  else
    let noise := clampQ (u * 0.1) (-0.25) 0.25
    { ag with action := outputAction + noise }

/-- The body of the `Episode` while-loop (lines 314–332): select an action,
step the environment, increment `totalSteps`, store the transition, replace
the current state, and — unless deterministic or still below the exploration
threshold — run one `Update`.  Returns the new agent, the reward, and
whether `Update` ran (the Boolean is instrumentation for the statements
below, not program state). -/
def episodeBody {S : Type} (ops : SACOps S) (u : ℚ) (ag : SACAgent S) :
    SACAgent S × ℚ × Bool :=
  let ag1 := SelectAction ops u ag
  let sr := ops.envSample ag1.state ag1.action
  let tr : Transition S :=
    { state := ag1.state
      action := ag1.action
      reward := sr.2
      nextState := sr.1
      isTerminal := ops.envIsTerminal sr.1
      discount := ag1.config.discount }
  let ag2 := { ag1 with
    totalSteps := ag1.totalSteps + 1
    replay := ag1.replay ++ [tr] }
  let ag3 := { ag2 with state := sr.1 }
  if ag3.deterministic = true ∨ ag3.totalSteps < ag3.config.explorationSteps
  then
    (ag3, sr.2, false)
  else
    (Update ops ag3, sr.2, true)

/-- Result of one episode: the final agent, the source's `totalReturn` and
`steps` values, plus two instrumentation traces (one entry per environment
step, chronological): the reward received and whether `Update` ran. -/
structure EpisodeResult (S : Type) where
  agent : SACAgent S
  totalReturn : ℚ
  steps : ℕ
  rewards : List ℚ
  updates : List Bool

/-- The `Episode` while-loop (lines 311–333) with explicit fuel: exits with
the accumulated return when the state is terminal, or when a nonzero step
limit has been reached (`config.StepLimit() && steps >= config.StepLimit()`);
`none` when the fuel runs out before the loop exits. -/
def episodeLoop {S : Type} (ops : SACOps S) (noise : ℕ → ℚ) (fuel : ℕ)
    (ag : SACAgent S) (steps : ℕ) (totalReturn : ℚ) :
    Option (EpisodeResult S) :=
  if ops.envIsTerminal ag.state then
    some { agent := ag, totalReturn := totalReturn, steps := steps,
           rewards := [], updates := [] }
  else if ag.config.stepLimit ≠ 0 ∧ ag.config.stepLimit ≤ steps then
    some { agent := ag, totalReturn := totalReturn, steps := steps,
           rewards := [], updates := [] }
  else
    match fuel with
    | 0 => none
    | Nat.succ fuel' =>
      let b := episodeBody ops (noise steps) ag
      match episodeLoop ops noise fuel' b.1 (steps + 1) (totalReturn + b.2.1)
        with
      | none => none
      | some r => some { r with
          rewards := b.2.1 :: r.rewards
          updates := b.2.2 :: r.updates }

/-- `SAC::Episode()` (lines 296–335): fetch the initial state from the
environment, run the loop from `steps = 0`, `totalReturn = 0`. -/
def Episode {S : Type} (ops : SACOps S) (noise : ℕ → ℚ) (fuel : ℕ)
    (ag : SACAgent S) : Option (EpisodeResult S) :=
  episodeLoop ops noise fuel { ag with state := ops.envInitial } 0 0

/-! ## Spec-side definitions

Definitions written from the specification's words, to be compared with the
embedded source. -/

/-- Spec §4.5: `target = (1 − rho) · target + rho · learning`, one scalar
parameter. -/
def specSoftTarget (rho t l : ℚ) : ℚ := (1 - rho) * t + rho * l

/-- Spec §4.3 step 5: `reward + γ · (1 − terminal) · min(targetQ1, targetQ2)`,
one sample. -/
def specBootstrapTarget (discount reward : ℚ) (terminal : Bool)
    (q1 q2 : ℚ) : ℚ :=
  reward + discount * (1 - termQ terminal) * min q1 q2

/-- Spec §4.1 step 2d / §8 transition fidelity: the transition a step must
store — the state observed immediately before the step, the action actually
taken, the reward and next state the environment returned for that step, the
terminal test applied to the next state, and the configured discount. -/
def specStoredTransition {S : Type} (ops : SACOps S) (u : ℚ)
    (ag : SACAgent S) : Transition S :=
  { state := ag.state
    action := (SelectAction ops u ag).action
    reward := (ops.envSample ag.state (SelectAction ops u ag).action).2
    nextState := (ops.envSample ag.state (SelectAction ops u ag).action).1
    isTerminal :=
      ops.envIsTerminal (ops.envSample ag.state (SelectAction ops u ag).action).1
    discount := ag.config.discount }

/-! ## Concrete collaborator instantiations

Used to evaluate the embedding at concrete inputs. -/

/-- A concrete collaborator set on the one-point state space: linear
networks, plain gradient-descent updater, identity sampling, never-terminal
environment with constant reward 1. -/
def opsU : SACOps Unit where
  qPredict := fun ps input => ps.sum + input.sum
  qBackward := fun ps _ outGrad => List.replicate ps.length outGrad.sum
  policyPredict := fun ps input => ps.sum + input.sum
  policyBackward := fun ps _ outGrad => List.replicate ps.length outGrad.sum
  lossBackward := fun preds targets => List.zipWith (fun p t => p - t) preds
    targets
  updStep := fun st ps stepSize grad =>
    (List.zipWith (fun p g => p - stepSize * g) ps grad, st)
  encode := fun _ => [1]
  sample := fun replay => replay
  envInitial := ()
  envIsTerminal := fun _ => false
  envSample := fun _ _ => ((), 1)

/-- A concrete training configuration. -/
def configU : SACConfig where
  discount := 1/2
  stepSize := 1
  stepLimit := 2
  explorationSteps := 1
  targetNetworkSyncInterval := 3

/-- A concrete agent over `opsU`, not in deterministic mode. -/
def agU : SACAgent Unit where
  config := configU
  learningQ1 := [1]
  learningQ2 := [2]
  targetQ1 := [3]
  targetQ2 := [4]
  policyParams := [5]
  qUpdaterState := [0]
  policyUpdaterState := [0]
  totalSteps := 0
  deterministic := false
  state := ()
  action := 0
  replay := []

/-- Collaborators whose updater makes the optimizer state observable: a step
adds the state to the parameters elementwise and leaves the head of the
parameters it just consumed as the new state. -/
def opsShared : SACOps Unit where
  qPredict := fun _ _ => 0
  qBackward := fun _ _ _ => [0]
  policyPredict := fun _ _ => 0
  policyBackward := fun _ _ _ => [0]
  lossBackward := fun _ _ => []
  updStep := fun st ps _ _ => (List.zipWith (· + ·) ps st, [ps.headI])
  encode := fun _ => []
  sample := fun _ => []
  envInitial := ()
  envIsTerminal := fun _ => false
  envSample := fun _ _ => ((), 0)

/-- Agent for the optimizer-sharing counterexample: `totalSteps = 1` with
sync interval 2, so no soft update interferes. -/
def agShA : SACAgent Unit where
  config :=
    { discount := 1, stepSize := 1, stepLimit := 0, explorationSteps := 0,
      targetNetworkSyncInterval := 2 }
  learningQ1 := [5]
  learningQ2 := [0]
  targetQ1 := [0]
  targetQ2 := [0]
  policyParams := [0]
  qUpdaterState := [0]
  policyUpdaterState := [0]
  totalSteps := 1
  deterministic := false
  state := ()
  action := 0
  replay := []

/-- `agShA` with only critic 1's parameters changed. -/
def agShB : SACAgent Unit := { agShA with learningQ1 := [7] }

/-- Fresh draws for the C3 amended witness. -/
def drawsW : InitDraws where
  q1Reset := [0]
  q2Reset := [9]
  policyReset := [0]

/-- Collaborators for demonstrating summed (unaveraged) actor-gradient
accumulation: the per-sample policy gradient is the encoded state. -/
def opsSum : SACOps Bool where
  qPredict := fun _ _ => 0
  qBackward := fun _ _ _ => [1]
  policyPredict := fun _ _ => 0
  policyBackward := fun _ input _ => input
  lossBackward := fun _ _ => []
  updStep := fun st ps _ _ => (ps, st)
  encode := fun b => [if b then 5 else 3]
  sample := fun r => r
  envInitial := false
  envIsTerminal := fun _ => false
  envSample := fun s _ => (s, 0)

/-- A sample in state `false` (per-sample gradient `[3]` under `opsSum`). -/
def trF : Transition Bool :=
  { state := false, action := 0, reward := 0, nextState := false,
    isTerminal := false, discount := 1 }

/-- A sample in state `true` (per-sample gradient `[5]` under `opsSum`). -/
def trT : Transition Bool :=
  { state := true, action := 0, reward := 0, nextState := true,
    isTerminal := false, discount := 1 }

/-! ## Theorems -/

/-- C10: immediately after construction, each target critic's parameter block
is an exact copy of its corresponding learning critic's parameter block. -/
theorem init_targets_copy_learning {S : Type} (config : SACConfig)
    (q1Given policyGiven : Params) (replay : List (Transition S))
    (qUpd0 policyUpd0 : List ℚ) (s0 : S) (draws : InitDraws) :
    (initAgent config q1Given policyGiven replay qUpd0 policyUpd0 s0
        draws).targetQ1 =
      (initAgent config q1Given policyGiven replay qUpd0 policyUpd0 s0
        draws).learningQ1 ∧
    (initAgent config q1Given policyGiven replay qUpd0 policyUpd0 s0
        draws).targetQ2 =
      (initAgent config q1Given policyGiven replay qUpd0 policyUpd0 s0
        draws).learningQ2 := by
  constructor <;> rfl

/-- C2: `SoftUpdate(rho)` sets each target critic's parameters elementwise to
`(1 - rho) · target + rho · learning`, the critic-1/target-1 pair and the
critic-2/target-2 pair treated independently; for `rho = 0.005`, scalar
target 1.0 and learning 2.0, the new target is 1.005. -/
theorem softUpdate_spec {S : Type} (rho : ℚ) (ag : SACAgent S) :
    (SoftUpdate rho ag).targetQ1 =
      List.zipWith (specSoftTarget rho) ag.targetQ1 ag.learningQ1 ∧
    (SoftUpdate rho ag).targetQ2 =
      List.zipWith (specSoftTarget rho) ag.targetQ2 ag.learningQ2 ∧
    specSoftTarget 0.005 1 2 = 1.005 := by
  refine ⟨rfl, rfl, ?_⟩
  norm_num [specSoftTarget]

/-- C9: in deterministic mode `SelectAction` sets the action to the raw
policy output on the encoded current state; otherwise it adds one uniform
draw scaled by 0.1, the noise itself clamped to `[-0.25, 0.25]` before the
addition.  The last two conjuncts separate noise-clamping from
result-clamping: with raw action 10 and draw 1, clamping the noise yields
10.1 while clamping the resulting action would have yielded 0.25. -/
theorem selectAction_noise_spec {S : Type} (ops : SACOps S) (u : ℚ)
    (ag : SACAgent S) :
    (ag.deterministic = true →
      (SelectAction ops u ag).action =
        ops.policyPredict ag.policyParams (ops.encode ag.state)) ∧
    (ag.deterministic = false →
      (SelectAction ops u ag).action =
        ops.policyPredict ag.policyParams (ops.encode ag.state) +
          clampQ (u * 0.1) (-0.25) 0.25) ∧
    (10 : ℚ) + clampQ (1 * 0.1) (-0.25) 0.25 = 10.1 ∧
    clampQ (10 + 1 * 0.1) (-0.25) 0.25 = 0.25 := by
  refine ⟨fun h => ?_, fun h => ?_, ?_, ?_⟩
  · simp [SelectAction, h]
  · simp [SelectAction, h]
  · rw [clampQ]; norm_num
  · rw [clampQ]; norm_num

/-- Witness for C9 at a concrete non-deterministic agent. -/
theorem selectAction_noise_spec_witness :
    agU.deterministic = false ∧
    (SelectAction opsU 1 agU).action =
      opsU.policyPredict agU.policyParams (opsU.encode agU.state) +
        clampQ (1 * 0.1) (-0.25) 0.25 :=
  ⟨rfl, (selectAction_noise_spec opsU 1 agU).2.1 rfl⟩

/-- C1: the bootstrapped target used for both learning critics is, per
sample, `reward + γ(1−terminal)·min(targetQ1, targetQ2)` with the target
critics evaluated on the policy's noiseless next-state action stacked over
the next state.  The last three conjuncts pin the formula to the minimum at
`γ = 1`, `reward = 0`, nonterminal, `targetQ1 = 1`, `targetQ2 = 3`: the
target is 1, while the mean of the two values is 2 and the larger individual
value is 3. -/
theorem nextQ_clipped_double_q {S : Type} (ops : SACOps S) (ag : SACAgent S)
    (batch : List (Transition S)) :
    nextQ ops ag batch = batch.map (fun tr =>
      specBootstrapTarget ag.config.discount tr.reward tr.isTerminal
        (ops.qPredict ag.targetQ1 (targetQInputCol ops ag tr))
        (ops.qPredict ag.targetQ2 (targetQInputCol ops ag tr))) ∧
    specBootstrapTarget 1 0 false 1 3 = 1 ∧
    (0 : ℚ) + 1 * (1 - termQ false) * ((1 + 3) / 2) = 2 ∧
    (0 : ℚ) + 1 * (1 - termQ false) * 3 = 3 := by
  refine ⟨rfl, ?_, ?_, ?_⟩
  · rw [specBootstrapTarget, termQ]; norm_num
  · rw [termQ]; norm_num
  · rw [termQ]; norm_num

/-! ## Preservation lemmas -/

/-- `SelectAction` writes only `action`. -/
theorem selectAction_same {S : Type} (ops : SACOps S) (u : ℚ)
    (ag : SACAgent S) :
    (SelectAction ops u ag).config = ag.config ∧
    (SelectAction ops u ag).totalSteps = ag.totalSteps ∧
    (SelectAction ops u ag).deterministic = ag.deterministic ∧
    (SelectAction ops u ag).state = ag.state ∧
    (SelectAction ops u ag).replay = ag.replay ∧
    (SelectAction ops u ag).config.explorationSteps =
      ag.config.explorationSteps := by
  unfold SelectAction
  split <;> exact ⟨rfl, rfl, rfl, rfl, rfl, rfl⟩

/-- `Update` leaves the step counter, configuration, mode, replay buffer,
current state and current action untouched. -/
theorem update_same {S : Type} (ops : SACOps S) (ag : SACAgent S) :
    (Update ops ag).totalSteps = ag.totalSteps ∧
    (Update ops ag).config = ag.config ∧
    (Update ops ag).deterministic = ag.deterministic ∧
    (Update ops ag).replay = ag.replay ∧
    (Update ops ag).state = ag.state ∧
    (Update ops ag).action = ag.action := by
  unfold Update SoftUpdate
  split <;> exact ⟨rfl, rfl, rfl, rfl, rfl, rfl⟩

/-- The learning parameter blocks and the optimizer states that `Update`
produces, read off the critic phase and the actor phase; the trailing
conditional `SoftUpdate` touches neither. -/
theorem update_learning_eq {S : Type} (ops : SACOps S) (ag : SACAgent S) :
    (Update ops ag).learningQ1 =
      (criticUpdate ops ag (ops.sample ag.replay)).1 ∧
    (Update ops ag).learningQ2 =
      (criticUpdate ops ag (ops.sample ag.replay)).2.1 ∧
    (Update ops ag).qUpdaterState =
      (criticUpdate ops ag (ops.sample ag.replay)).2.2 ∧
    (Update ops ag).policyParams =
      (ops.updStep ag.policyUpdaterState ag.policyParams ag.config.stepSize
        (actorGradient ops (criticUpdate ops ag (ops.sample ag.replay)).1
          (criticUpdate ops ag (ops.sample ag.replay)).2.1 ag.policyParams
          (ops.sample ag.replay))).1 := by
  unfold Update SoftUpdate
  split <;> exact ⟨rfl, rfl, rfl, rfl⟩

/-- Without a sync boundary, one `Update` leaves both targets untouched. -/
theorem update_targets_no_sync {S : Type} (ops : SACOps S) (ag : SACAgent S)
    (h : ag.totalSteps % ag.config.targetNetworkSyncInterval ≠ 0) :
    (Update ops ag).targetQ1 = ag.targetQ1 ∧
    (Update ops ag).targetQ2 = ag.targetQ2 := by
  unfold Update
  rw [if_neg h]
  exact ⟨rfl, rfl⟩

/-- Iterating `Update` never moves the step counter or the configuration. -/
theorem iterate_update_same {S : Type} (ops : SACOps S) (ag : SACAgent S)
    (n : ℕ) :
    ((Update ops)^[n] ag).totalSteps = ag.totalSteps ∧
    ((Update ops)^[n] ag).config = ag.config := by
  induction n with
  | zero => exact ⟨rfl, rfl⟩
  | succ n ih =>
    rw [Function.iterate_succ_apply']
    exact ⟨(update_same ops _).1.trans ih.1, (update_same ops _).2.1.trans ih.2⟩

/-- C4: when the lifetime step counter is not a multiple of the sync
interval, any number of learning updates leaves both target critics'
parameter blocks unchanged; when it is a multiple, the update step
soft-updates both targets with the fixed rate 0.005. -/
theorem target_sync_gate {S : Type} (ops : SACOps S) (ag : SACAgent S)
    (n : ℕ) (hpos : 0 < ag.config.targetNetworkSyncInterval) :
    (ag.totalSteps % ag.config.targetNetworkSyncInterval ≠ 0 →
      ((Update ops)^[n] ag).targetQ1 = ag.targetQ1 ∧
      ((Update ops)^[n] ag).targetQ2 = ag.targetQ2) ∧
    (ag.totalSteps % ag.config.targetNetworkSyncInterval = 0 →
      (Update ops ag).targetQ1 =
        softUpdateParams 0.005 ag.targetQ1 (Update ops ag).learningQ1 ∧
      (Update ops ag).targetQ2 =
        softUpdateParams 0.005 ag.targetQ2 (Update ops ag).learningQ2) := by
  constructor
  · intro h
    induction n with
    | zero => exact ⟨rfl, rfl⟩
    | succ n ih =>
      rw [Function.iterate_succ_apply']
      have hc := iterate_update_same ops ag n
      have h' : ((Update ops)^[n] ag).totalSteps %
          ((Update ops)^[n] ag).config.targetNetworkSyncInterval ≠ 0 := by
        rw [hc.1, hc.2]; exact h
      have ht := update_targets_no_sync ops ((Update ops)^[n] ag) h'
      exact ⟨ht.1.trans ih.1, ht.2.trans ih.2⟩
  · intro h
    have h1 := (update_learning_eq ops ag).1
    have h2 := (update_learning_eq ops ag).2.1
    unfold Update SoftUpdate at h1 h2 ⊢
    rw [if_pos h] at h1 h2 ⊢
    exact ⟨by rw [h1], by rw [h2]⟩

/-- Witness for C4 at concrete agents: `totalSteps = 1` with sync interval 3
leaves the targets alone over two updates; `totalSteps = 0` soft-updates
with rate 0.005. -/
theorem target_sync_gate_witness :
    (0 < agU.config.targetNetworkSyncInterval ∧
      ((Update opsU)^[2] { agU with totalSteps := 1 }).targetQ1 =
        ({ agU with totalSteps := 1 } : SACAgent Unit).targetQ1) ∧
    ((Update opsU agU).targetQ1 =
      softUpdateParams 0.005 agU.targetQ1 (Update opsU agU).learningQ1) := by
  constructor
  · exact ⟨by norm_num [agU, configU],
      ((target_sync_gate opsU { agU with totalSteps := 1 } 2
        (by norm_num [agU, configU])).1 (by norm_num [agU, configU])).1⟩
  · exact ((target_sync_gate opsU agU 1 (by norm_num [agU, configU])).2
      (by norm_num [agU, configU])).1

/-- One episode step preserves the configuration and the mode, and moves the
lifetime step counter up by exactly one. -/
theorem episodeBody_same {S : Type} (ops : SACOps S) (u : ℚ)
    (ag : SACAgent S) :
    (episodeBody ops u ag).1.config = ag.config ∧
    (episodeBody ops u ag).1.deterministic = ag.deterministic ∧
    (episodeBody ops u ag).1.totalSteps = ag.totalSteps + 1 := by
  simp only [episodeBody]
  have hs := selectAction_same ops u ag
  split
  · exact ⟨hs.1, hs.2.2.1, by rw [hs.2.1]⟩
  · refine ⟨(update_same ops _).2.1.trans hs.1,
      (update_same ops _).2.2.1.trans hs.2.2.1, ?_⟩
    rw [(update_same ops _).1]
    exact congrArg (· + 1) hs.2.1

/-- The episode step runs `Update` exactly when the agent is not in
deterministic mode and the incremented lifetime step counter has reached the
exploration threshold. -/
theorem episodeBody_update_flag {S : Type} (ops : SACOps S) (u : ℚ)
    (ag : SACAgent S) :
    ((episodeBody ops u ag).2.2 = true ↔
      (ag.deterministic = false ∧
        ag.config.explorationSteps ≤ ag.totalSteps + 1)) := by
  simp only [episodeBody]
  have hs := selectAction_same ops u ag
  split
  case isTrue hcond =>
    simp only [Bool.false_eq_true, false_iff, not_and]
    intro hdet hexp
    rw [hs.2.2.1, hs.2.1, hs.1] at hcond
    rcases hcond with h | h
    · rw [hdet] at h; exact Bool.false_ne_true h
    · omega
  case isFalse hcond =>
    simp only [true_iff]
    rw [hs.2.2.1, hs.2.1, hs.1] at hcond
    push_neg at hcond
    exact ⟨Bool.not_eq_true _ ▸ hcond.1, by omega⟩

/-- On a never-terminal environment with a nonzero step limit `L` and enough
fuel, the episode loop exits through the step-limit check after exactly
`L - steps` further steps, accumulating one reward per step. -/
theorem episodeLoop_limit {S : Type} (ops : SACOps S) (noise : ℕ → ℚ)
    (hterm : ∀ s, ops.envIsTerminal s = false) (L : ℕ) (hL : 0 < L) :
    ∀ (fuel : ℕ) (ag : SACAgent S) (steps : ℕ) (totalReturn : ℚ),
      ag.config.stepLimit = L → steps ≤ L → L - steps ≤ fuel →
      ∃ r, episodeLoop ops noise fuel ag steps totalReturn = some r ∧
        r.steps = L ∧ r.rewards.length = L - steps ∧
        r.updates.length = L - steps ∧
        r.totalReturn = totalReturn + r.rewards.sum := by
  intro fuel
  induction fuel with
  | zero =>
    intro ag steps ret hcfg hsl hfuel
    have hstep : steps = L := by omega
    simp only [episodeLoop, hterm, Bool.false_eq_true, if_false]
    have hcond : ag.config.stepLimit ≠ 0 ∧ ag.config.stepLimit ≤ steps :=
      ⟨by omega, by omega⟩
    rw [if_pos hcond]
    exact ⟨_, rfl, hstep, by simp [hstep], by simp [hstep], by simp⟩
  | succ fuel ih =>
    intro ag steps ret hcfg hsl hfuel
    by_cases hstep : steps = L
    · simp only [episodeLoop, hterm, Bool.false_eq_true, if_false]
      have hcond : ag.config.stepLimit ≠ 0 ∧ ag.config.stepLimit ≤ steps :=
        ⟨by omega, by omega⟩
      rw [if_pos hcond]
      exact ⟨_, rfl, hstep, by simp [hstep], by simp [hstep], by simp⟩
    · have hlt : steps < L := by omega
      simp only [episodeLoop, hterm, Bool.false_eq_true, if_false]
      have hcond : ¬(ag.config.stepLimit ≠ 0 ∧ ag.config.stepLimit ≤ steps) :=
        by omega
      rw [if_neg hcond]
      have hb := episodeBody_same ops (noise steps) ag
      obtain ⟨r, hr, hrsteps, hrlen, hulen, hrret⟩ :=
        ih (episodeBody ops (noise steps) ag).1 (steps + 1)
          (ret + (episodeBody ops (noise steps) ag).2.1)
          (by rw [hb.1]; exact hcfg) (by omega) (by omega)
      rw [hr]
      refine ⟨_, rfl, hrsteps, ?_, ?_, ?_⟩
      · simp only [List.length_cons, hrlen]; omega
      · simp only [List.length_cons, hulen]; omega
      · simp only [List.sum_cons, hrret]; ring

/-- With step limit 0 on a never-terminal environment, the loop never
exits: it is bounded only by the terminal-state check (and here by the
fuel). -/
theorem episodeLoop_none {S : Type} (ops : SACOps S) (noise : ℕ → ℚ)
    (hterm : ∀ s, ops.envIsTerminal s = false) :
    ∀ (fuel : ℕ) (ag : SACAgent S) (steps : ℕ) (totalReturn : ℚ),
      ag.config.stepLimit = 0 →
      episodeLoop ops noise fuel ag steps totalReturn = none := by
  intro fuel
  induction fuel with
  | zero =>
    intro ag steps ret hcfg
    simp only [episodeLoop, hterm, Bool.false_eq_true, if_false]
    rw [if_neg (by omega)]
  | succ fuel ih =>
    intro ag steps ret hcfg
    simp only [episodeLoop, hterm, Bool.false_eq_true, if_false]
    rw [if_neg (by omega)]
    rw [ih (episodeBody ops (noise steps) ag).1 (steps + 1) _
      (by rw [(episodeBody_same ops (noise steps) ag).1]; exact hcfg)]

/-- Per-step characterization of the update trace: the `i`-th environment
step of the loop runs `Update` exactly when the agent is not deterministic
and the exploration threshold is within the incremented step counter. -/
theorem episodeLoop_updates {S : Type} (ops : SACOps S) (noise : ℕ → ℚ) :
    ∀ (fuel : ℕ) (ag : SACAgent S) (steps : ℕ) (totalReturn : ℚ)
      (r : EpisodeResult S),
      episodeLoop ops noise fuel ag steps totalReturn = some r →
      ∀ (i : ℕ) (hi : i < r.updates.length),
        (r.updates.get ⟨i, hi⟩ = true ↔
          (ag.deterministic = false ∧
            ag.config.explorationSteps ≤ ag.totalSteps + i + 1)) := by
  intro fuel
  induction fuel with
  | zero =>
    intro ag steps ret r h i hi
    simp only [episodeLoop] at h
    split at h
    · cases h; simp at hi
    · split at h
      · cases h; simp at hi
      · cases h
  | succ fuel ih =>
    intro ag steps ret r h i hi
    simp only [episodeLoop] at h
    split at h
    · cases h; simp at hi
    · split at h
      · cases h; simp at hi
      · split at h
        · cases h
        · rename_i r' heq
          cases h
          match i with
          | 0 =>
            simpa using episodeBody_update_flag ops (noise steps) ag
          | Nat.succ j =>
            have hb := episodeBody_same ops (noise steps) ag
            have hj : j < r'.updates.length := by
              simpa using hi
            have := ih (episodeBody ops (noise steps) ag).1 (steps + 1)
              (ret + (episodeBody ops (noise steps) ag).2.1) r' heq j hj
            rw [hb.1, hb.2.1, hb.2.2] at this
            simp only [List.get_cons_succ]
            rw [this]
            constructor
            · rintro ⟨h1, h2⟩; exact ⟨h1, by omega⟩
            · rintro ⟨h1, h2⟩; exact ⟨h1, by omega⟩

/-- C5: within `Episode`, the `i`-th environment step triggers a learning
update exactly when the agent is not in deterministic mode and the lifetime
step counter, incremented for that step, has reached the exploration-steps
threshold; in particular a deterministic episode never updates. -/
theorem exploration_gating {S : Type} (ops : SACOps S) (noise : ℕ → ℚ)
    (fuel : ℕ) (ag : SACAgent S) (r : EpisodeResult S)
    (h : Episode ops noise fuel ag = some r) (i : ℕ)
    (hi : i < r.updates.length) :
    r.updates.get ⟨i, hi⟩ = true ↔
      (ag.deterministic = false ∧
        ag.config.explorationSteps ≤ ag.totalSteps + i + 1) :=
  episodeLoop_updates ops noise fuel { ag with state := ops.envInitial } 0 0
    r h i hi

/-- Witness for C5: with exploration threshold 1 a two-step concrete episode
updates at its first step. -/
theorem exploration_gating_witness :
    ∃ r, Episode opsU (fun _ => 0) 2 agU = some r ∧
      ∃ hi : 0 < r.updates.length, r.updates.get ⟨0, hi⟩ = true := by
  obtain ⟨r, hr, -, -, hulen, -⟩ :=
    episodeLoop_limit opsU (fun _ => 0) (fun _ => rfl) 2 (by norm_num) 2
      { agU with state := opsU.envInitial } 0 0 rfl (by omega) (by omega)
  have hE : Episode opsU (fun _ => 0) 2 agU = some r := hr
  have hi : 0 < r.updates.length := by rw [hulen]; norm_num
  refine ⟨r, hE, hi, ?_⟩
  exact (exploration_gating opsU (fun _ => 0) 2 agU r hE 0 hi).mpr
    ⟨rfl, by norm_num [agU, configU]⟩

/-- C7: with step limit `L > 0` on an environment that never reaches a
terminal state, `Episode` performs exactly `L` steps and returns the sum of
the `L` rewards; with step limit 0 the loop is bounded only by the
terminal-state check, so on such an environment it never exits. -/
theorem episode_step_limit {S : Type} (ops : SACOps S) (noise : ℕ → ℚ)
    (ag : SACAgent S) (L fuel : ℕ)
    (hterm : ∀ s, ops.envIsTerminal s = false) :
    (ag.config.stepLimit = L → 0 < L → L ≤ fuel →
      ∃ r, Episode ops noise fuel ag = some r ∧ r.steps = L ∧
        r.rewards.length = L ∧ r.totalReturn = r.rewards.sum) ∧
    (ag.config.stepLimit = 0 → Episode ops noise fuel ag = none) := by
  constructor
  · intro hcfg hL hfuel
    obtain ⟨r, hr, h1, h2, -, h4⟩ :=
      episodeLoop_limit ops noise hterm L hL fuel
        { ag with state := ops.envInitial } 0 0 hcfg (by omega) (by omega)
    exact ⟨r, hr, h1, by simpa using h2, by simpa using h4⟩
  · intro hcfg
    exact episodeLoop_none ops noise hterm fuel _ 0 0 hcfg

/-- Witness for C7: two steps, two rewards, return equal to their sum. -/
theorem episode_step_limit_witness :
    (∀ s, opsU.envIsTerminal s = false) ∧
    ∃ r, Episode opsU (fun _ => 0) 2 agU = some r ∧ r.steps = 2 ∧
      r.rewards.length = 2 ∧ r.totalReturn = r.rewards.sum :=
  ⟨fun _ => rfl,
    (episode_step_limit opsU (fun _ => 0) agU 2 2 (fun _ => rfl)).1 rfl
      (by norm_num) (by norm_num)⟩

/-- C8: every environment step appends exactly one transition to the replay
store — the pre-step state, the action taken, the environment's reward and
next state, the terminal test on the next state, and the configured
discount — and whenever the step runs a learning update, the update is
applied to an agent whose replay already ends with that transition. -/
theorem store_transition_fidelity {S : Type} (ops : SACOps S) (u : ℚ)
    (ag : SACAgent S) :
    (episodeBody ops u ag).1.replay =
      ag.replay ++ [specStoredTransition ops u ag] ∧
    (episodeBody ops u ag).1.replay.length = ag.replay.length + 1 ∧
    ((episodeBody ops u ag).2.2 = true →
      ∃ agMid, (episodeBody ops u ag).1 = Update ops agMid ∧
        agMid.replay = ag.replay ++ [specStoredTransition ops u ag]) := by
  have hs := selectAction_same ops u ag
  have hrepl : (episodeBody ops u ag).1.replay =
      ag.replay ++ [specStoredTransition ops u ag] := by
    simp only [episodeBody]
    split
    · simp only [specStoredTransition]
      rw [hs.2.2.2.2.1, hs.2.2.2.1, congrArg SACConfig.discount hs.1]
    · rw [(update_same ops _).2.2.2.1]
      simp only [specStoredTransition]
      rw [hs.2.2.2.2.1, hs.2.2.2.1, congrArg SACConfig.discount hs.1]
  refine ⟨hrepl, by rw [hrepl]; simp, ?_⟩
  intro hflag
  simp only [episodeBody] at hflag ⊢
  split at hflag
  · cases hflag
  · rename_i hcond
    rw [if_neg hcond]
    refine ⟨_, rfl, ?_⟩
    simp only [specStoredTransition]
    rw [hs.2.2.2.2.1, hs.2.2.2.1, congrArg SACConfig.discount hs.1]

/-- Witness for C8 at a concrete agent whose first step runs an update. -/
theorem store_transition_fidelity_witness :
    (episodeBody opsU 0 agU).2.2 = true ∧
    ∃ agMid, (episodeBody opsU 0 agU).1 = Update opsU agMid ∧
      agMid.replay = agU.replay ++ [specStoredTransition opsU 0 agU] := by
  have hflag : (episodeBody opsU 0 agU).2.2 = true := by
    rw [episodeBody_update_flag opsU 0 agU]
    exact ⟨rfl, by norm_num [agU, configU]⟩
  exact ⟨hflag, (store_transition_fidelity opsU 0 agU).2.2 hflag⟩

/-- Counterexample to C3's optimizer-independence conjunct: two agents that
differ only in critic 1's parameters end one `Update` with different critic-2
parameters — critic 2's update consumes optimizer state produced by critic
1's update, so the two critics' updates do share optimizer state. -/
theorem critic_optimizer_sharing_counterexample :
    agShB = { agShA with learningQ1 := [7] } ∧
    (Update opsShared agShA).learningQ2 ≠ (Update opsShared agShB).learningQ2
    := by
  refine ⟨rfl, ?_⟩
  have hA : (Update opsShared agShA).learningQ2 = [5] := by
    rw [(update_learning_eq opsShared agShA).2.1]
    norm_num [criticUpdate, criticGradientQ1, criticGradientQ2, nextQ,
      opsShared, agShA, List.headI]
  have hB : (Update opsShared agShB).learningQ2 = [7] := by
    rw [(update_learning_eq opsShared agShB).2.1]
    norm_num [criticUpdate, criticGradientQ1, criticGradientQ2, nextQ,
      opsShared, agShB, agShA, List.headI]
  rw [hA, hB]
  intro h
  exact absurd (List.head_eq_of_cons_eq h) (by norm_num)

/-- C3 amended: critic 2 is initialized by a fresh parameter reset (differing
from critic 1 whenever the fresh draw differs), and critic 2's parameters
never influence critic 1's update; but the two critics are updated through
the single shared q-network optimizer instance — critic 2's step starts from
the optimizer state critic 1's step produced (only the policy network has its
own separate instance). -/
theorem twin_critics_amended {S : Type} :
    (∀ (config : SACConfig) (q1Given policyGiven : Params)
        (replay : List (Transition S)) (qUpd0 policyUpd0 : List ℚ) (s0 : S)
        (draws : InitDraws),
      (initAgent config q1Given policyGiven replay qUpd0 policyUpd0 s0
          draws).learningQ2 = draws.q2Reset ∧
      (draws.q2Reset ≠ (initAgent config q1Given policyGiven replay qUpd0
          policyUpd0 s0 draws).learningQ1 →
        (initAgent config q1Given policyGiven replay qUpd0 policyUpd0 s0
            draws).learningQ2 ≠
          (initAgent config q1Given policyGiven replay qUpd0 policyUpd0 s0
            draws).learningQ1)) ∧
    (∀ (ops : SACOps S) (ag : SACAgent S) (p2 : Params),
      (Update ops { ag with learningQ2 := p2 }).learningQ1 =
        (Update ops ag).learningQ1) ∧
    (∀ (ops : SACOps S) (ag : SACAgent S),
      (Update ops ag).learningQ2 =
        (ops.updStep
          (ops.updStep ag.qUpdaterState ag.learningQ1 ag.config.stepSize
            (criticGradientQ1 ops ag (ops.sample ag.replay))).2
          ag.learningQ2 ag.config.stepSize
          (criticGradientQ2 ops ag (ops.sample ag.replay))).1) := by
  refine ⟨fun config q1Given policyGiven replay qUpd0 policyUpd0 s0 draws =>
    ⟨rfl, fun h => h⟩, fun ops ag p2 => ?_, fun ops ag => ?_⟩
  · rw [(update_learning_eq ops { ag with learningQ2 := p2 }).1,
      (update_learning_eq ops ag).1]
    rfl
  · rw [(update_learning_eq ops ag).2.1]
    rfl

/-- Witness for the C3 amended theorem: with fresh draw `[9]` against given
critic-1 parameters `[1]`, the initialized critics differ. -/
theorem twin_critics_amended_witness :
    drawsW.q2Reset ≠
      (initAgent configU [1] [5] ([] : List (Transition Unit)) [0] [0] ()
        drawsW).learningQ1 ∧
    (initAgent configU [1] [5] ([] : List (Transition Unit)) [0] [0] ()
        drawsW).learningQ2 ≠
      (initAgent configU [1] [5] ([] : List (Transition Unit)) [0] [0] ()
        drawsW).learningQ1 := by
  have hne : drawsW.q2Reset ≠
      (initAgent configU [1] [5] ([] : List (Transition Unit)) [0] [0] ()
        drawsW).learningQ1 := by
    intro h
    exact absurd (List.head_eq_of_cons_eq h) (by norm_num [drawsW, initAgent])
  exact ⟨hne,
    ((twin_critics_amended (S := Unit)).1 configU [1] [5] [] [0] [0] ()
      drawsW).2 hne⟩

/-- C6: each learning update applies exactly one policy optimizer step, on
the accumulated actor gradient with the configured step size, the critic
parameters being those left by the critic update; the critic a sample
backpropagates is the one whose prediction on (policy action, state) is the
lower of the two; and the per-sample gradients are summed, not divided by
the batch size — per-sample gradients `[3]` and `[5]` accumulate to `[8]`,
not the mean `[4]`. -/
theorem actor_update_spec {S : Type} :
    (∀ (ops : SACOps S) (ag : SACAgent S),
      (Update ops ag).policyParams =
        (ops.updStep ag.policyUpdaterState ag.policyParams ag.config.stepSize
          (actorGradient ops (criticUpdate ops ag (ops.sample ag.replay)).1
            (criticUpdate ops ag (ops.sample ag.replay)).2.1 ag.policyParams
            (ops.sample ag.replay))).1) ∧
    (∀ (ops : SACOps S) (lq1 lq2 : Params) (input : List ℚ),
      ops.qPredict
          (if ops.qPredict lq1 input < ops.qPredict lq2 input then lq1
           else lq2) input =
        min (ops.qPredict lq1 input) (ops.qPredict lq2 input)) ∧
    actorGradient opsSum [] [] [] [trF, trT] = [8] := by
  refine ⟨fun ops ag => (update_learning_eq ops ag).2.2.2,
    fun ops lq1 lq2 input => ?_, ?_⟩
  · split
    · rename_i h
      exact (min_eq_left (le_of_lt h)).symm
    · rename_i h
      exact (min_eq_right (not_lt.1 h)).symm
  · show List.zipWith (· + ·)
        (List.zipWith (· + ·) [(0 : ℚ)] [(3 : ℚ)]) [(5 : ℚ)] = [8]
    norm_num

end MlpackSAC
